import Mathlib

/-!
Shallow embedding of the SMS delivery-queue engine
(`database.py`, `rate_limiter.py`, `sender.py`, `traffilink_service.py`,
`app.py`) and proofs about its specified behaviour.

Modelling conventions:
* the `sms_queue` table is a list of `Job` records in insertion (rowid)
  order; `AUTOINCREMENT` ids are modelled as `length + 1` over the
  append-only table;
* Python `float` timestamps are modelled as integers (`ℤ`) — every
  timestamp comparison and backoff addition in the embedded code is
  order-theoretic, so discrete time loses nothing; the rate limiter's
  error rates stay rational (`ℚ`);
* nullable columns are `Option` fields; fallible code paths (an uncaught
  Python exception, e.g. the `IndexError` that `sqlite3.Row` raises when
  a column absent from the `SELECT` is read) are modelled with `Option`
  results, `none` standing for the raised exception — the connection
  context manager rolls the transaction back and re-raises, so on `none`
  the table is unchanged;
* SQLite semantics are embedded as they are, in particular a `UNIQUE`
  constraint never fires on rows whose constrained column is `NULL`
  (`NULL` compares distinct from everything, itself included).
-/

/-- One entry of the JSON `operador_history` list kept per queued SMS
(`database.py`, `actualizar_intento`). -/
structure HistEntry where
  operador : String
  intento : Nat
  timestamp : ℤ
  estado : String
  error : Option String
deriving Repr, DecidableEq

/-- One row of the `sms_queue` table (`database.py`, `init_db`). -/
structure Job where
  id : Nat
  numero : String
  mensaje : String
  campana_id : Option String
  estado : String
  intentos : Nat
  max_intentos : Nat
  operador : String
  operador_history : List HistEntry
  proximo_reintento : Option ℤ
  error_ultimo : Option String
  respuesta_ultima : Option String
  webhook_confirmado : Bool
  webhook_timestamp : Option ℤ
  creado : ℤ
  primer_intento : Option ℤ
  ultimo_intento : Option ℤ
  entregado : Option ℤ
  metadata : Option String
deriving Repr, DecidableEq

/-- The queue table: rows in rowid order, append-only (the core never
deletes). -/
abbrev Store := List Job

/-- The `UNIQUE(numero, mensaje, campana_id)` conflict test of the insert
in `agregar_a_cola`.  Under SQLite semantics a row whose `campana_id` is
`NULL` conflicts with nothing, so a conflict needs both campaign ids
present and equal. -/
def conflictoUnico (store : Store) (numero mensaje : String)
    (campana_id : Option String) : Bool :=
  store.any fun j =>
    j.numero == numero && j.mensaje == mensaje &&
      match j.campana_id, campana_id with
      | some a, some b => a == b
      | _, _ => false

/-- Fresh row with the column defaults of `init_db`
(`estado 'pendiente'`, `intentos 0`, `max_intentos 5`,
`operador 'principal'`) and the values inserted by `agregar_a_cola`
(`operador_history = '[]'`). -/
def filaNueva (id : Nat) (numero mensaje : String)
    (campana_id : Option String) (metadata : Option String) (now : ℤ) : Job :=
  { id := id
    numero := numero
    mensaje := mensaje
    campana_id := campana_id
    estado := "pendiente"
    intentos := 0
    max_intentos := 5
    operador := "principal"
    operador_history := []
    proximo_reintento := none
    error_ultimo := none
    respuesta_ultima := none
    webhook_confirmado := false
    webhook_timestamp := none
    creado := now
    primer_intento := none
    ultimo_intento := none
    entregado := none
    metadata := metadata }

/-- Embeds `DatabaseManager.agregar_a_cola`: insert a new `'pendiente'`
row, or return `None` when the insert raises `IntegrityError` on the
unique constraint. -/
def agregarACola (store : Store) (numero mensaje : String)
    (campana_id : Option String) (metadata : Option String) (now : ℤ) :
    Store × Option Nat :=
  if conflictoUnico store numero mensaje campana_id then
    (store, none)
  else
    let queue_id := store.length + 1
    (store ++ [filaNueva queue_id numero mensaje campana_id metadata now],
      some queue_id)

/-- The `WHERE` clause of `obtener_pendientes`:
`(estado = 'pendiente' OR (estado = 'reintentando' AND proximo_reintento <= now))
AND intentos < max_intentos`.  A `NULL` `proximo_reintento` fails the SQL
comparison. -/
def esElegible (now : ℤ) (j : Job) : Bool :=
  (j.estado == "pendiente" ||
    (j.estado == "reintentando" &&
      match j.proximo_reintento with
      | some t => decide (t ≤ now)
      | none => false)) &&
  decide (j.intentos < j.max_intentos)

/-- The `ORDER BY intentos ASC, creado ASC` ordering of
`obtener_pendientes`. -/
def ordenCola (a b : Job) : Prop :=
  a.intentos < b.intentos ∨ (a.intentos = b.intentos ∧ a.creado ≤ b.creado)

instance : DecidableRel ordenCola := fun a b => by
  unfold ordenCola; infer_instance

instance : IsTotal Job ordenCola where
  total a b := by
    unfold ordenCola
    rcases Nat.lt_trichotomy a.intentos b.intentos with h | h | h
    · exact Or.inl (Or.inl h)
    · rcases le_total a.creado b.creado with h' | h'
      · exact Or.inl (Or.inr ⟨h, h'⟩)
      · exact Or.inr (Or.inr ⟨h.symm, h'⟩)
    · exact Or.inr (Or.inl h)

instance : IsTrans Job ordenCola where
  trans a b c hab hbc := by
    unfold ordenCola at *
    rcases hab with h1 | ⟨h1, h1'⟩ <;> rcases hbc with h2 | ⟨h2, h2'⟩
    · exact Or.inl (h1.trans h2)
    · exact Or.inl (h2 ▸ h1)
    · exact Or.inl (h1 ▸ h2)
    · exact Or.inr ⟨h1.trans h2, h1'.trans h2'⟩

/-- Embeds `DatabaseManager.obtener_pendientes`: filter by eligibility,
order by `(intentos, creado)`, cap at `limit`.  It is a pure read: the
SQL is a plain `SELECT` and no store state is touched or returned. -/
def obtenerPendientes (store : Store) (now : ℤ) (limit : Nat) : List Job :=
  ((store.filter (esElegible now)).insertionSort ordenCola).take limit

/-- The backoff schedule written in `actualizar_intento`'s error
branch: `delays = [1, 5, 30, 300, 1800]` seconds.  Dead code in the
source: the error branch raises before this list is reached (see
`nuevoEstadoProximo`). -/
def delays : List ℤ := [1, 5, 30, 300, 1800]

/-- The state recomputation of `actualizar_intento` ("Determinar
próximo estado"): a `'enviado'` or `'entregado'` outcome is taken over
as the state with no retry scheduled.  Any other outcome enters the
error branch, whose first expression reads `row['max_intentos']` — but
the row lookup (`SELECT operador_history, intentos FROM sms_queue`)
fetched no such column, so `sqlite3.Row` raises `IndexError` before
the retry/backoff computation; `none` models that exception.  The
`'reintentando'`/`'fallido'` assignment and the `delays` indexing below
the crashing read are dead code. -/
def nuevoEstadoProximo (estadoIn : String) : Option (String × Option ℤ) :=
  if estadoIn = "enviado" then some ("enviado", none)
  else if estadoIn = "entregado" then some ("entregado", none)
  else none

/-- The column assignments of the `UPDATE sms_queue SET ...` of
`actualizar_intento`, for a recomputed state/next-retry pair `p`:
append the history entry, bump `intentos`, stamp the timestamps
(`primer_intento = COALESCE(primer_intento, now)`). -/
def filaCon (operador estadoIn : String) (respuesta_api error : Option String)
    (now : ℤ) (j : Job) (p : String × Option ℤ) : Job :=
  { j with
    estado := p.1
    intentos := j.intentos + 1
    operador := operador
    operador_history := j.operador_history ++
      [{ operador := operador, intento := j.intentos + 1, timestamp := now,
         estado := estadoIn, error := error }]
    respuesta_ultima := respuesta_api
    error_ultimo := error
    ultimo_intento := some now
    proximo_reintento := p.2
    primer_intento := some (j.primer_intento.getD now) }

/-- The per-row update of `actualizar_intento` once the row was found:
recompute the state pair and apply the column assignments; `none`
propagates the `IndexError` of the state recomputation. -/
def filaActualizada (operador estadoIn : String) (respuesta_api error : Option String)
    (now : ℤ) (j : Job) : Option Job :=
  (nuevoEstadoProximo estadoIn).map
    (filaCon operador estadoIn respuesta_api error now j)

/-- Row-by-row fallible update of the table: the whole update fails
when any row update fails (the SQLite transaction rolls back on the
raised exception). -/
def actualizaFilas (f : Job → Option Job) : Store → Option Store
  | [] => some []
  | a :: l =>
    match f a, actualizaFilas f l with
    | some b, some l' => some (b :: l')
    | _, _ => none

/-- Embeds `DatabaseManager.actualizar_intento` on the queue table:
look the row up by id — `(store, false)` when absent — then apply
`filaActualizada` to the rows carrying that id (the primary key holds
exactly one) and `true`-return.  A `none` is the `IndexError` raised at
`row['max_intentos']` on a failure outcome: the connection context
manager rolls the transaction back and re-raises, so the table is left
unchanged and the exception propagates to the caller.  The `sms_log`
insert and `operator_stats` upsert touch other tables and are outside
the modelled state. -/
def actualizarIntento (store : Store) (queue_id : Nat) (operador estadoIn : String)
    (respuesta_api error : Option String) (now : ℤ) : Option (Store × Bool) :=
  match store.find? (fun j => j.id = queue_id) with
  | none => some (store, false)
  | some _ =>
    (actualizaFilas (fun j =>
      if j.id = queue_id then
        filaActualizada operador estadoIn respuesta_api error now j
      else
        some j) store).map (·, true)

/-- The row mutation of `confirmar_entrega`'s `UPDATE`. -/
def filaEntregada (now : ℤ) (j : Job) : Job :=
  { j with
    estado := "entregado"
    webhook_confirmado := true
    webhook_timestamp := some now
    entregado := some now }

/-- Embeds `DatabaseManager.confirmar_entrega`: the `UPDATE ... WHERE
numero = ? AND estado != 'entregado' LIMIT 1` touches the first matching
row in rowid order; the function returns whether a row changed.  The
`webhooks` log insert is another table, outside the modelled state. -/
def confirmarEntrega (numero : String) (now : ℤ) : Store → Store × Bool
  | [] => ([], false)
  | j :: rest =>
    if j.numero = numero ∧ j.estado ≠ "entregado" then
      (filaEntregada now j :: rest, true)
    else
      match confirmarEntrega numero now rest with
      | (rest', b) => (j :: rest', b)

/-- Embeds `validar_numero_colombiano` from `app.py`: strip every
non-digit (`re.sub(r'\D', '', numero)` also removes the whitespace that
`.strip()` would), accept a 10-digit number starting with `'3'`
unchanged, accept a 12-digit number starting with `'57'` with the
prefix dropped, reject anything else (`None`). -/
def validarNumeroColombiano (numero : String) : Option String :=
  let digits : List Char := numero.data.filter Char.isDigit
  if digits.length = 10 ∧ digits.take 1 = ['3'] then
    some ⟨digits⟩
  else if digits.length = 12 ∧ digits.take 2 = ['5', '7'] then
    some ⟨digits.drop 2⟩
  else
    none

/-- In-memory state of the adaptive per-operator `RateLimiter`
(`rate_limiter.py`): the fields touched by `registrar_error` and
`registrar_exito`.  Deques hold oldest entries first. -/
structure RateLimiterState where
  max_por_minuto : ℤ
  adaptativo : Bool
  errores_recientes : List ℚ
  timestamps : List ℚ
  tasa_error_actual : ℚ
deriving Repr, DecidableEq

/-- Appending to a `collections.deque(maxlen := n)`: push right, evict
from the left beyond `n` entries. -/
def pushDeque (n : Nat) (l : List ℚ) (x : ℚ) : List ℚ :=
  let l' := l ++ [x]
  if n < l'.length then l'.drop (l'.length - n) else l'

/-- The error rate `registrar_error` computes: errors of the trailing
60 seconds (among the at most 10 retained) over `min(total sends
recorded, 100)`. -/
def tasaCalculada (now : ℚ) (s : RateLimiterState) : ℚ :=
  (((pushDeque 10 s.errores_recientes now).filter
      fun t => decide (now - t < 60)).length : ℚ) /
    ((min s.timestamps.length 100 : Nat) : ℚ)

/-- Embeds `RateLimiter.registrar_error`: push the error timestamp
(deque of at most 10), and when at least one send is recorded, set
`tasa_error_actual` to the recomputed rate and shrink `max_por_minuto`
to `max(10, int(max_por_minuto * 0.8))` when adaptive and the rate is
strictly above `0.2`.  `int()` truncation agrees with the floor here
because any value below 10 is clamped to 10 anyway. -/
def registrarError (now : ℚ) (s : RateLimiterState) : RateLimiterState :=
  let errores' := pushDeque 10 s.errores_recientes now
  let total := s.timestamps.length
  if 0 < total then
    let tasa := tasaCalculada now s
    let s' := { s with errores_recientes := errores', tasa_error_actual := tasa }
    if s.adaptativo && decide ((1 : ℚ)/5 < tasa) then
      { s' with max_por_minuto := max 10 ⌊(s.max_por_minuto : ℚ) * (4/5)⌋ }
    else s'
  else { s with errores_recientes := errores' }

/-- Embeds `RateLimiter.registrar_exito`: when adaptive and the stored
error rate is strictly below `0.05`, raise `max_por_minuto` to
`min(200, max_por_minuto + 5)` if that is an increase. -/
def registrarExito (s : RateLimiterState) : RateLimiterState :=
  if decide (s.tasa_error_actual < (1 : ℚ)/20) && s.adaptativo then
    let nueva := min 200 (s.max_por_minuto + 5)
    if s.max_por_minuto < nueva then { s with max_por_minuto := nueva } else s
  else s

/-- Replacement of every occurrence of `pat` in a character list,
scanning left to right — the semantics of Python `str.replace` for the
nonempty patterns used at every call site (they are all brace-wrapped).
Structural recursion on a fuel counter so that it reduces in the
kernel. -/
def replaceGo (pat rep : List Char) : Nat → List Char → List Char
  | _, [] => []
  | 0, l => l
  | fuel + 1, c :: cs =>
    if pat ≠ [] ∧ pat.isPrefixOf (c :: cs) then
      rep ++ replaceGo pat rep fuel (cs.drop (pat.length - 1))
    else
      c :: replaceGo pat rep fuel cs

/-- Python `str.replace` over strings (nonempty pattern).  The fuel,
one unit per consumed character, starts at the string length, which is
enough: every step of `replaceGo` consumes at least one character. -/
def pyReplace (s pat rep : String) : String :=
  ⟨replaceGo pat.data rep.data s.data.length s.data⟩

/-- Python substring membership `sub in s`. -/
def contieneSub (s sub : String) : Bool :=
  decide (sub.data <:+: s.data)

/-- Embeds `SMSSender.preparar_mensaje`: substitute each
`{column}` placeholder present in the row data, then substitute
`{link}` — when a nonempty dynamic link is supplied and the placeholder
occurs — by the link wrapped in line breaks. -/
def prepararMensaje (mensaje : String) (row_data : List (String × String))
    (link_dinamico : Option String) : String :=
  let m1 := row_data.foldl (fun m kv =>
    let ph := "\x7b" ++ kv.1 ++ "\x7d"
    if contieneSub m ph then pyReplace m ph kv.2 else m) mensaje
  match link_dinamico with
  | some l =>
    if l ≠ "" ∧ contieneSub m1 "{link}" then
      pyReplace m1 "{link}" ("\n" ++ l ++ "\n")
    else m1
  | none => m1

/-- Outcome of the one `requests.post` transport call of the standard
operator branch of `enviar_sms_ahora`: any HTTP response at all is
treated as a sent message by the source; a timeout or connection error
is a failure. -/
inductive Transporte where
  | respuesta (texto : String)
  | timeout
  | errorConexion (msg : String)
deriving Repr, DecidableEq

/-- What `enviar_sms_ahora` reports back, plus whether the transport
was invoked at all (the source only reaches `requests.post` past the
local validation). -/
structure ResultadoEnvio where
  success : Bool
  error : Option String
  network : Bool
deriving Repr, DecidableEq

/-- Embeds the standard-operator branch of `SMSSender.enviar_sms_ahora`
acting on the queue table: resolve the message; when the resolved text
is empty, call the attempt recorder with an `'error'` outcome and
return without any transport call (the `transporte` argument is not
consulted in that branch); otherwise the transport outcome is recorded
as `'enviado'` (any response) or `'error'` (timeout / connection
failure).  Router lookup and rate limiting touch no queue state and
are outside the model; `none` propagates the recorder's `IndexError` —
on a failure outcome the recording always raises, so the dict with
`success = False` below the empty-message recording call is never
built in the source either. -/
def enviarSmsAhora (store : Store) (queue_id : Nat) (mensaje operador_nombre : String)
    (row_data : List (String × String)) (link_dinamico : Option String)
    (now : ℤ) (transporte : Transporte) : Option (Store × ResultadoEnvio) :=
  let mensaje_procesado := prepararMensaje mensaje row_data link_dinamico
  if mensaje_procesado.length = 0 then
    (actualizarIntento store queue_id operador_nombre "error" none
        (some "Mensaje vacío después de procesar variables") now).map
      fun p => (p.1, { success := false, error := some "Mensaje vacío", network := false })
  else
    match transporte with
    | .respuesta r =>
      (actualizarIntento store queue_id operador_nombre "enviado" (some r) none now).map
        fun p => (p.1, { success := true, error := none, network := true })
    | .timeout =>
      (actualizarIntento store queue_id operador_nombre "error" none
          (some "Timeout de conexión") now).map
        fun p => (p.1, { success := false, error := some "Timeout", network := true })
    | .errorConexion m =>
      (actualizarIntento store queue_id operador_nombre "error" none (some m) now).map
        fun p => (p.1, { success := false, error := some m, network := true })

/-- UTF-8 encoding of one code point. -/
def utf8Char (c : Char) : List Nat :=
  let n := c.toNat
  if n < 128 then [n]
  else if n < 2048 then [192 ||| (n >>> 6), 128 ||| (n &&& 63)]
  else if n < 65536 then
    [224 ||| (n >>> 12), 128 ||| ((n >>> 6) &&& 63), 128 ||| (n &&& 63)]
  else
    [240 ||| (n >>> 18), 128 ||| ((n >>> 12) &&& 63),
      128 ||| ((n >>> 6) &&& 63), 128 ||| (n &&& 63)]

/-- UTF-8 bytes of a string (Python `str.encode()`). -/
def utf8Bytes (s : String) : List Nat :=
  (s.data.map utf8Char).flatten

def md5K : List Nat :=
  [3614090360, 3905402710, 606105819, 3250441966, 4118548399, 1200080426,
   2821735955, 4249261313, 1770035416, 2336552879, 4294925233, 2304563134,
   1804603682, 4254626195, 2792965006, 1236535329, 4129170786, 3225465664,
   643717713, 3921069994, 3593408605, 38016083, 3634488961, 3889429448,
   568446438, 3275163606, 4107603335, 1163531501, 2850285829, 4243563512,
   1735328473, 2368359562, 4294588738, 2272392833, 1839030562, 4259657740,
   2763975236, 1272893353, 4139469664, 3200236656, 681279174, 3936430074,
   3572445317, 76029189, 3654602809, 3873151461, 530742520, 3299628645,
   4096336452, 1126891415, 2878612391, 4237533241, 1700485571, 2399980690,
   4293915773, 2240044497, 1873313359, 4264355552, 2734768916, 1309151649,
   4149444226, 3174756917, 718787259, 3951481745]

def md5S : List Nat :=
  [7, 12, 17, 22, 7, 12, 17, 22, 7, 12, 17, 22, 7, 12, 17, 22,
   5, 9, 14, 20, 5, 9, 14, 20, 5, 9, 14, 20, 5, 9, 14, 20,
   4, 11, 16, 23, 4, 11, 16, 23, 4, 11, 16, 23, 4, 11, 16, 23,
   6, 10, 15, 21, 6, 10, 15, 21, 6, 10, 15, 21, 6, 10, 15, 21]

def not32 (x : Nat) : Nat := x ^^^ 4294967295

def rotl32 (x n : Nat) : Nat :=
  ((x <<< n) % 4294967296) ||| (x >>> (32 - n))

/-- Little-endian byte expansion, `k` bytes. -/
def leBytes (k x : Nat) : List Nat :=
  (List.range k).map fun i => (x >>> (8 * i)) &&& 255

/-- MD5 padding: `0x80`, zeros to 56 mod 64, 8-byte little-endian bit
length. -/
def md5Pad (msg : List Nat) : List Nat :=
  let len := msg.length
  let z := (119 - len % 64) % 64
  msg ++ [128] ++ List.replicate z 0 ++ leBytes 8 (len * 8)

/-- Split into 64-byte blocks (the padded length is a positive multiple
of 64). -/
def md5Blocks (l : List Nat) : List (List Nat) :=
  (List.range ((l.length + 63) / 64)).map fun i => (l.drop (64 * i)).take 64

/-- The little-endian 32-bit word `M[g]` of a block. -/
def md5Word (block : List Nat) (g : Nat) : Nat :=
  block.getD (4 * g) 0 + 256 * block.getD (4 * g + 1) 0 +
    65536 * block.getD (4 * g + 2) 0 + 16777216 * block.getD (4 * g + 3) 0

def md5F (i b c d : Nat) : Nat :=
  if i < 16 then (b &&& c) ||| (not32 b &&& d)
  else if i < 32 then (d &&& b) ||| (not32 d &&& c)
  else if i < 48 then b ^^^ c ^^^ d
  else c ^^^ (b ||| not32 d)

def md5G (i : Nat) : Nat :=
  if i < 16 then i
  else if i < 32 then (5 * i + 1) % 16
  else if i < 48 then (3 * i + 5) % 16
  else (7 * i) % 16

abbrev Md5State := Nat × Nat × Nat × Nat

def md5Round (block : List Nat) (st : Md5State) (i : Nat) : Md5State :=
  let f := (md5F i st.2.1 st.2.2.1 st.2.2.2 + st.1 + md5K.getD i 0 +
    md5Word block (md5G i)) % 4294967296
  (st.2.2.2, (st.2.1 + rotl32 f (md5S.getD i 0)) % 4294967296, st.2.1, st.2.2.1)

def md5Block (st : Md5State) (block : List Nat) : Md5State :=
  let r := (List.range 64).foldl (md5Round block) st
  ((st.1 + r.1) % 4294967296, (st.2.1 + r.2.1) % 4294967296,
   (st.2.2.1 + r.2.2.1) % 4294967296, (st.2.2.2 + r.2.2.2) % 4294967296)

def md5Init : Md5State := (1732584193, 4023233417, 2562383102, 271733878)

def hexDigit (n : Nat) : Char :=
  if n < 10 then Char.ofNat (48 + n) else Char.ofNat (87 + n)

def byteHex (b : Nat) : List Char := [hexDigit (b / 16), hexDigit (b % 16)]

/-- Lowercase hex MD5 digest of a string's UTF-8 bytes — `hashlib.md5(s.encode()).hexdigest()`. -/
def md5hex (s : String) : String :=
  let st := (md5Blocks (md5Pad (utf8Bytes s))).foldl md5Block md5Init
  ⟨((leBytes 4 st.1 ++ leBytes 4 st.2.1 ++ leBytes 4 st.2.2.1 ++
      leBytes 4 st.2.2.2).map byteHex).flatten⟩

/-- Embeds `TraffiLinkService.generar_sign`: the hex MD5 of the
parameter string concatenated with the hex MD5 of the shared-secret
password — `MD5(params + MD5(password))`. -/
def generarSign (password params_str : String) : String :=
  md5hex (params_str ++ md5hex password)

/-! ## Validation of the MD5 embedding against the RFC 1321 test suite -/

set_option maxRecDepth 10000 in
example : md5hex "" = "d41d8cd98f00b204e9800998ecf8427e" := by rfl

set_option maxRecDepth 10000 in
example : md5hex "abc" = "900150983cd24fb0d6963f7d28e17f72" := by rfl

/-! ## Claims -/

/-- C1.  The spec requires two `ClaimEligible` calls, the second on the
store resulting from the first with no outcome recorded in between, to
return disjoint job sets, the claim step marking returned jobs as in
flight.  The source's `obtener_pendientes` is a plain `SELECT` — it is a
pure read, leaving the store as it was (visible in the type of
`obtenerPendientes`, which neither takes a mutable store nor returns
one) — so the second call returns exactly the same nonempty job set and
the job it returns is still eligible afterwards. -/
theorem c1_obtener_pendientes_no_marca_en_vuelo :
    obtenerPendientes [filaNueva 1 "3001234567" "hola" none none 0] 10 50 =
        [filaNueva 1 "3001234567" "hola" none none 0] ∧
      obtenerPendientes [filaNueva 1 "3001234567" "hola" none none 0] 10 50 ≠ [] ∧
      esElegible 10 (filaNueva 1 "3001234567" "hola" none none 0) = true := by
  decide

/-- C5.  A job already in the terminal state `'entregado'` (delivered)
is moved out of it by `actualizar_intento`, which recomputes the state
from the reported outcome with no guard on the current state: a
later-completing attempt whose transport got a response (outcome
`'enviado'`) turns the delivered job back into `'enviado'` and the call
reports `True`.  (A failure outcome instead raises the recorder's
`IndexError` and changes nothing — the reversal is through the success
path.) -/
theorem c5_actualizar_intento_revierte_entregado :
    let j : Job := { filaNueva 1 "3001234567" "hola" none none 0 with
      estado := "entregado", intentos := 4, entregado := some 5 }
    (actualizarIntento [j] 1 "claro" "enviado" (some "ok") none 20).map
        (fun p => (p.1.map Job.estado, p.2)) = some (["enviado"], true) := by
  decide

/-- C9.  Signature generation is deterministic — the embedding of
`generar_sign` is a pure function of the password and the parameter
string alone (no timestamp, nonce or other ambient state enters it in
the source) — and the signature is the MD5 hex digest of the parameter
string concatenated with the MD5 hex digest of the password. -/
theorem c9_generar_sign_determinista (password p q : String) (h : p = q) :
    generarSign password p = generarSign password q ∧
      generarSign password p = md5hex (p ++ md5hex password) := by
  subst h
  exact ⟨rfl, rfl⟩

/-- C9 witness: the theorem applied to the repository's default
credentials and the `queryBalance` parameter string. -/
theorem c9_generar_sign_determinista_witness :
    generarSign "G2o0jRnm" "account=0152C274" =
        generarSign "G2o0jRnm" "account=0152C274" ∧
      generarSign "G2o0jRnm" "account=0152C274" =
        md5hex ("account=0152C274" ++ md5hex "G2o0jRnm") :=
  c9_generar_sign_determinista "G2o0jRnm" "account=0152C274" "account=0152C274" rfl

/-- The unique constraint never fires when the enrollment carries no
campaign id: under SQLite semantics the inserted `NULL` conflicts with
no stored row. -/
lemma conflictoUnico_none (store : Store) (n m : String) :
    conflictoUnico store n m none = false := by
  simp only [conflictoUnico, List.any_eq_false]
  intro j _
  cases j.campana_id <;> simp

/-- C4 counterexample.  Two identical enrollments with the campaign
identifier absent: the spec requires the second to be rejected as a
duplicate with no job id, but the code accepts it — the second call
returns job id 2 and the store grows from one row to two. -/
theorem c4_duplicado_sin_campana_aceptado :
    let primera := agregarACola [] "3001234567" "hola" none none 0
    let segunda := agregarACola primera.1 "3001234567" "hola" none none 1
    primera.2 = some 1 ∧ segunda.2 = some 2 ∧
      primera.1.length = 1 ∧ segunda.1.length = 2 := by
  decide

/-- C4 amended.  Enrollment with a present campaign identifier is
rejected as a duplicate (no job id, store unchanged) exactly when an
enrolled job carries the same (number, message, campaign) tuple; a
non-conflicting enrollment appends a new job in state `'pendiente'`
with no attempts and empty attempt history and returns its id; and an
enrollment with the campaign identifier absent is never rejected, each
`NULL` campaign being distinct for the unique constraint. -/
theorem c4_unicidad_matricula (store : Store) (n m : String)
    (camp meta : Option String) (now : ℤ) :
    (∀ c, (∃ j ∈ store, j.numero = n ∧ j.mensaje = m ∧ j.campana_id = some c) →
      agregarACola store n m (some c) meta now = (store, none)) ∧
    (conflictoUnico store n m camp = false →
      agregarACola store n m camp meta now =
        (store ++ [filaNueva (store.length + 1) n m camp meta now],
          some (store.length + 1))) ∧
    ((agregarACola store n m none meta now).2 = some (store.length + 1)) ∧
    (filaNueva (store.length + 1) n m camp meta now).estado = "pendiente" ∧
    (filaNueva (store.length + 1) n m camp meta now).intentos = 0 ∧
    (filaNueva (store.length + 1) n m camp meta now).operador_history = [] := by
  refine ⟨?_, ?_, ?_, rfl, rfl, rfl⟩
  · rintro c ⟨j, hj, h1, h2, h3⟩
    have hc : conflictoUnico store n m (some c) = true := by
      simp only [conflictoUnico, List.any_eq_true]
      exact ⟨j, hj, by rw [h3]; simp [h1, h2]⟩
    simp [agregarACola, hc]
  · intro h
    simp [agregarACola, h]
  · simp [agregarACola, conflictoUnico_none]

/-- C4 witness: the amended theorem applied to a one-job store and a
conflicting same-campaign enrollment, which is rejected with the store
unchanged. -/
theorem c4_unicidad_matricula_witness :
    agregarACola [filaNueva 1 "3001234567" "hola" (some "c1") none 0]
        "3001234567" "hola" (some "c1") none 1 =
      ([filaNueva 1 "3001234567" "hola" (some "c1") none 0], none) :=
  (c4_unicidad_matricula [filaNueva 1 "3001234567" "hola" (some "c1") none 0]
      "3001234567" "hola" (some "c1") none 1).1 "c1"
    ⟨filaNueva 1 "3001234567" "hola" (some "c1") none 0,
      List.mem_singleton.mpr rfl, rfl, rfl, rfl⟩

/-- Unfolding of `confirmarEntrega` at a head row the `UPDATE` matches. -/
lemma confirmarEntrega_cons_pos {j : Job} {n : String} {now : ℤ} {l : Store}
    (h : j.numero = n ∧ j.estado ≠ "entregado") :
    confirmarEntrega n now (j :: l) = (filaEntregada now j :: l, true) := by
  simp only [confirmarEntrega, if_pos h]

/-- Unfolding of `confirmarEntrega` at a head row the `UPDATE` skips. -/
lemma confirmarEntrega_cons_neg {j : Job} {n : String} {now : ℤ} {l : Store}
    (h : ¬(j.numero = n ∧ j.estado ≠ "entregado")) :
    confirmarEntrega n now (j :: l) =
      (j :: (confirmarEntrega n now l).1, (confirmarEntrega n now l).2) := by
  simp only [confirmarEntrega, if_neg h]

/-- A confirmation whose number matches no stored row updates nothing
and reports `False`. -/
lemma confirmarEntrega_sin_coincidencia {n : String} {now : ℤ} {l : Store}
    (h : ∀ j ∈ l, j.numero ≠ n) : confirmarEntrega n now l = (l, false) := by
  induction l with
  | nil => rfl
  | cons a l ih =>
    have ha : a.numero ≠ n := h a (List.mem_cons_self a l)
    rw [confirmarEntrega_cons_neg (by simp [ha]),
      ih fun j hj => h j (List.mem_cons_of_mem a hj)]

/-- C6 counterexample.  Two distinct pending jobs for the same
recipient number (allowed by enrollment, whose uniqueness key also
includes the message): the first `ConfirmDelivery` delivers the first
job, and the replayed identical confirmation — required by the spec to
be a `False`-returning no-op — delivers the second job and returns
`True`, changing the store again. -/
theorem c6_segunda_confirmacion_no_es_noop :
    let j1 := filaNueva 1 "3001234567" "hola" none none 0
    let j2 := filaNueva 2 "3001234567" "chau" none none 0
    let primera := confirmarEntrega "3001234567" 10 [j1, j2]
    let segunda := confirmarEntrega "3001234567" 20 primera.1
    primera.2 = true ∧ segunda.2 = true ∧ segunda.1 ≠ primera.1 := by
  decide

/-- C6 amended.  When the store holds at most one job for the recipient
number, replaying a delivery confirmation is a no-op that returns
`False` (so the two calls change state at most once); with several jobs
sharing the number each call can deliver one more of them, as the
counterexample shows. -/
theorem c6_confirmacion_idempotente (n : String) (t1 t2 : ℤ) (store : Store)
    (hcount : (store.filter fun j => j.numero == n).length ≤ 1) :
    confirmarEntrega n t2 (confirmarEntrega n t1 store).1 =
      ((confirmarEntrega n t1 store).1, false) := by
  induction store with
  | nil => rfl
  | cons a l ih =>
    by_cases h1 : a.numero = n
    · have hfl : ∀ j ∈ l, j.numero ≠ n := by
        have : (l.filter fun j => j.numero == n).length = 0 := by
          simp only [List.filter_cons, beq_iff_eq, if_pos h1,
            List.length_cons] at hcount
          omega
        intro j hj hn
        have : j ∈ l.filter fun j => j.numero == n :=
          List.mem_filter.mpr ⟨hj, by simp [hn]⟩
        simp [List.length_eq_zero.mp ‹_›] at this
      by_cases h2 : a.estado = "entregado"
      · have hna : ¬(a.numero = n ∧ a.estado ≠ "entregado") := by simp [h2]
        simp only [confirmarEntrega_cons_neg hna,
          confirmarEntrega_sin_coincidencia hfl]
      · have hfe : ¬((filaEntregada t1 a).numero = n ∧
            (filaEntregada t1 a).estado ≠ "entregado") := by
          simp [filaEntregada]
        simp only [confirmarEntrega_cons_pos ⟨h1, h2⟩,
          confirmarEntrega_cons_neg hfe,
          confirmarEntrega_sin_coincidencia hfl]
    · have hc : (l.filter fun j => j.numero == n).length ≤ 1 := by
        simpa [List.filter_cons, h1] using hcount
      have hna : ¬(a.numero = n ∧ a.estado ≠ "entregado") := by simp [h1]
      simp only [confirmarEntrega_cons_neg hna, ih hc]

/-- C6 witness: the amended theorem applied to a store holding a single
job for the number — the replayed confirmation is a no-op returning
`False`. -/
theorem c6_confirmacion_idempotente_witness :
    confirmarEntrega "3001234567" 20
        (confirmarEntrega "3001234567" 10
          [filaNueva 1 "3001234567" "hola" none none 0]).1 =
      ((confirmarEntrega "3001234567" 10
        [filaNueva 1 "3001234567" "hola" none none 0]).1, false) :=
  c6_confirmacion_idempotente "3001234567" 10 20
    [filaNueva 1 "3001234567" "hola" none none 0] (by decide)

/-- A number accepted by the front end's validator always has exactly
10 characters: either branch of `validar_numero_colombiano` returns a
10-digit local form (the `57` prefix of a 12-digit input is dropped). -/
lemma validarNumeroColombiano_length {raw v : String}
    (h : validarNumeroColombiano raw = some v) : v.length = 10 := by
  simp only [validarNumeroColombiano] at h
  split_ifs at h with h1 h2
  · cases h
    simpa [String.length] using h1.1
  · cases h
    simp [String.length, List.length_drop, h2.1]

/-- C10.  Delivery confirmation matches the stored `numero` by exact
string equality, and every enrolled `numero` comes from the front end's
validator, which stores the 10-digit local form; a confirmation
carrying the 57-prefixed international form (12 characters) therefore
matches no row: the store is unchanged and the call returns `False`. -/
theorem c10_confirmacion_con_prefijo_no_coincide
    (store : Store) (now : ℤ) (raw v : String)
    (hall : ∀ j ∈ store, ∃ r, validarNumeroColombiano r = some j.numero)
    (hv : validarNumeroColombiano raw = some v) :
    confirmarEntrega ("57" ++ v) now store = (store, false) := by
  apply confirmarEntrega_sin_coincidencia
  intro j hj heq
  obtain ⟨r, hr⟩ := hall j hj
  have h10 : j.numero.length = 10 := validarNumeroColombiano_length hr
  have hv10 : v.length = 10 := validarNumeroColombiano_length hv
  have h2l : ("57" : String).length = 2 := rfl
  have h12 : ("57" ++ v).length = 12 := by
    rw [String.length_append, hv10, h2l]
  rw [heq, h12] at h10
  exact absurd h10 (by decide)

/-- C10 witness: the theorem applied to a store enrolled with the local
form `3001234567` and a webhook confirmation carrying the international
form `573001234567`. -/
theorem c10_confirmacion_con_prefijo_no_coincide_witness :
    confirmarEntrega ("57" ++ "3001234567") 10
        [filaNueva 1 "3001234567" "hola" none none 0] =
      ([filaNueva 1 "3001234567" "hola" none none 0], false) :=
  c10_confirmacion_con_prefijo_no_coincide
    [filaNueva 1 "3001234567" "hola" none none 0] 10 "573001234567" "3001234567"
    (fun j hj => ⟨"3001234567", by rw [List.mem_singleton.mp hj]; decide⟩)
    (by decide)

/-- On any outcome other than `'enviado'`/`'entregado'` the state
recomputation raises (reads the unfetched `max_intentos` column). -/
lemma nuevoEstadoProximo_fallo {est : String} (h1 : est ≠ "enviado")
    (h2 : est ≠ "entregado") : nuevoEstadoProximo est = none := by
  simp [nuevoEstadoProximo, h1, h2]

/-- If any row's update raises, the whole table update raises (and the
transaction rolls back). -/
lemma actualizaFilas_none {f : Job → Option Job} {l : Store} {x : Job}
    (hx : x ∈ l) (hfx : f x = none) : actualizaFilas f l = none := by
  induction l with
  | nil => cases hx
  | cons a l ih =>
    rcases List.mem_cons.mp hx with rfl | hx'
    · simp [actualizaFilas, hfx]
    · cases hfa : f a
      · simp [actualizaFilas, hfa]
      · simp [actualizaFilas, hfa, ih hx']

/-- `actualizar_intento` with a failure outcome on an existing row
always raises the `IndexError` (modelled `none`): the row lookup
succeeds, and the state recomputation then reads the unfetched
`max_intentos` column. -/
lemma actualizarIntento_fallo {store : Store} {qid : Nat} {op est : String}
    {resp err : Option String} {now : ℤ} {j : Job}
    (hmem : j ∈ store) (hid : j.id = qid)
    (h1 : est ≠ "enviado") (h2 : est ≠ "entregado") :
    actualizarIntento store qid op est resp err now = none := by
  have hsome : (store.find? fun x => decide (x.id = qid)).isSome := by
    rw [List.find?_isSome]
    exact ⟨j, hmem, by simp [hid]⟩
  obtain ⟨x, hx⟩ := Option.isSome_iff_exists.mp hsome
  have hxid : x.id = qid := by simpa using List.find?_some hx
  have hxmem : x ∈ store := List.mem_of_find?_eq_some hx
  have hmain : actualizaFilas (fun y =>
      if y.id = qid then filaActualizada op est resp err now y else some y)
      store = none :=
    actualizaFilas_none (f := fun y =>
        if y.id = qid then filaActualizada op est resp err now y else some y)
      hxmem (by simp [hxid, filaActualizada, nuevoEstadoProximo_fallo h1 h2])
  simp [actualizarIntento, hx, hmain]

/-- C2.  The claim's failure rules never execute in the source: on a
pending job recording a failure outcome, `actualizar_intento` raises
`IndexError` at `row['max_intentos']` — the row lookup
(`SELECT operador_history, intentos`) fetched no such column — and the
transaction rolls back (`none`), so the job moves to neither
`'reintentando'` (no backoff is ever scheduled) nor `'fallido'`.  Only
the success half of the claim holds: a `'enviado'` outcome moves the
job to `'enviado'` and reports `True`. -/
theorem c2_resultado_fallo_lanza_excepcion :
    actualizarIntento [filaNueva 1 "3001234567" "hola" none none 0] 1 "claro"
        "error" none (some "Timeout de conexión") 10 = none ∧
    (actualizarIntento [filaNueva 1 "3001234567" "hola" none none 0] 1 "claro"
          "enviado" (some "ok") none 10).map
        (fun p => (p.1.map Job.estado, p.1.map Job.intentos, p.2)) =
      some (["enviado"], [1], true) := by
  decide

/-- C3.  `ClaimEligible(limit)` returns only jobs of the store that are
`'pendiente'` or `'reintentando'` with their retry timestamp due, with
attempts below their maximum (the `esElegible` predicate transcribes
exactly that `WHERE` clause); the result is sorted by attempt count
then creation time, holds at most `limit` jobs, and — whenever the
eligible jobs fit in `limit` — every eligible job of the store is
returned.  In particular a `'reintentando'` job whose retry timestamp
lies in the future is never returned. -/
theorem c3_elegibles_orden_limite (store : Store) (now : ℤ) (limit : Nat) :
    (∀ j ∈ obtenerPendientes store now limit,
      j ∈ store ∧ esElegible now j = true) ∧
    (obtenerPendientes store now limit).length ≤ limit ∧
    (obtenerPendientes store now limit).Sorted ordenCola ∧
    ((store.filter (esElegible now)).length ≤ limit →
      ∀ j ∈ store, esElegible now j = true → j ∈ obtenerPendientes store now limit) ∧
    (∀ j, j.estado = "reintentando" →
      (∀ t, j.proximo_reintento = some t → now < t) →
      j ∉ obtenerPendientes store now limit) := by
  have hmem : ∀ j ∈ obtenerPendientes store now limit,
      j ∈ store ∧ esElegible now j = true := by
    intro j hj
    have h1 : j ∈ (store.filter (esElegible now)).insertionSort ordenCola :=
      List.mem_of_mem_take hj
    have h2 := (List.mem_insertionSort ordenCola).mp h1
    exact ⟨(List.mem_filter.mp h2).1, (List.mem_filter.mp h2).2⟩
  refine ⟨hmem, ?_, ?_, ?_, ?_⟩
  · simp only [obtenerPendientes, List.length_take]
    exact Nat.min_le_left limit _
  · exact (List.sorted_insertionSort ordenCola _).sublist
      (List.take_sublist _ _)
  · intro hlen j hj he
    have hlen' : ((store.filter (esElegible now)).insertionSort ordenCola).length
        ≤ limit := by
      rwa [List.length_insertionSort]
    rw [obtenerPendientes, List.take_of_length_le hlen']
    exact (List.mem_insertionSort ordenCola).mpr (List.mem_filter.mpr ⟨hj, he⟩)
  · intro j hest hfut hj
    have he := (hmem j hj).2
    rw [esElegible, hest] at he
    cases hp : j.proximo_reintento with
    | none => rw [hp] at he; simp at he
    | some t =>
      rw [hp] at he
      simp at he
      exact absurd (hfut t hp) (not_lt.mpr he.1)

/-- C3 witness: a store holding one due pending job, one future-retry
job and one exhausted job — only the pending job is returned. -/
theorem c3_elegibles_orden_limite_witness :
    (filaNueva 1 "3001234567" "hola" none none 0) ∈
      obtenerPendientes
        [filaNueva 1 "3001234567" "hola" none none 0,
         { filaNueva 2 "3109876543" "hola" none none 0 with
            estado := "reintentando", proximo_reintento := some 50 },
         { filaNueva 3 "3201122334" "hola" none none 0 with
            estado := "fallido", intentos := 5 }] 10 20 :=
  ((c3_elegibles_orden_limite
      [filaNueva 1 "3001234567" "hola" none none 0,
       { filaNueva 2 "3109876543" "hola" none none 0 with
          estado := "reintentando", proximo_reintento := some 50 },
       { filaNueva 3 "3201122334" "hola" none none 0 with
          estado := "fallido", intentos := 5 }] 10 20).2.2.2.1
    (by decide) (filaNueva 1 "3001234567" "hola" none none 0)
    (List.mem_cons_self _ _) (by decide))

/-- C7 counterexample.  A job whose message is a lone placeholder
resolved against an empty field value: `Send` makes no transport call —
a transport that would respond and one that would time out both leave
the result identical — but contrary to the claim no failed attempt is
recorded: the recording call (`actualizar_intento` with an `'error'`
outcome) raises `IndexError` at the unfetched `max_intentos` column and
rolls back (`none`), so the whole call raises instead of returning, and
the job is left untouched in `'pendiente'`. -/
theorem c7_mensaje_vacio_no_registra_intento :
    enviarSmsAhora [filaNueva 1 "3001234567" "\x7bx\x7d" none none 0] 1
        "\x7bx\x7d" "claro" [("x", "")] none 10 .timeout = none ∧
    enviarSmsAhora [filaNueva 1 "3001234567" "\x7bx\x7d" none none 0] 1
        "\x7bx\x7d" "claro" [("x", "")] none 10 (.respuesta "ok") = none ∧
    actualizarIntento [filaNueva 1 "3001234567" "\x7bx\x7d" none none 0] 1
        "claro" "error" none
        (some "Mensaje vacío después de procesar variables") 10 = none := by
  decide

/-- C7 amended.  When the resolved message text is empty after
placeholder substitution, `Send` rejects the job before any transport
call (the conclusion holds for every transport outcome `tr`, which is
never consulted), but it does not record the rejection as a failed
attempt: the recording call raises `IndexError` inside `RecordAttempt`
— whose row lookup omits the `max_intentos` column — and the
transaction rolls back, so the job is left unchanged in its prior
state, still eligible for future claim cycles, and the exception
propagates to the caller of `Send`. -/
theorem c7_rechazo_local_sin_registro (store : Store) (qid : Nat)
    (msg op : String) (row : List (String × String)) (link : Option String)
    (now : ℤ) (tr : Transporte) (j : Job)
    (hmem : j ∈ store) (hid : j.id = qid)
    (hempty : prepararMensaje msg row link = "") :
    enviarSmsAhora store qid msg op row link now tr = none ∧
    actualizarIntento store qid op "error" none
      (some "Mensaje vacío después de procesar variables") now = none := by
  have hrec : actualizarIntento store qid op "error" none
      (some "Mensaje vacío después de procesar variables") now = none :=
    actualizarIntento_fallo hmem hid (by decide) (by decide)
  refine ⟨?_, hrec⟩
  simp only [enviarSmsAhora, hempty]
  rw [if_pos (show ("" : String).length = 0 from rfl), hrec]
  rfl

/-- C7 witness: the amended theorem applied to a fresh job whose
message is a `nombre` placeholder substituted by an empty value, with
a transport that would have answered. -/
theorem c7_rechazo_local_sin_registro_witness :
    enviarSmsAhora [filaNueva 7 "3109876543" "\x7bnombre\x7d" none none 0] 7
        "\x7bnombre\x7d" "movistar" [("nombre", "")] none 50 (.respuesta "ok")
      = none ∧
    actualizarIntento [filaNueva 7 "3109876543" "\x7bnombre\x7d" none none 0] 7
      "movistar" "error" none
      (some "Mensaje vacío después de procesar variables") 50 = none :=
  c7_rechazo_local_sin_registro
    [filaNueva 7 "3109876543" "\x7bnombre\x7d" none none 0] 7
    "\x7bnombre\x7d" "movistar" [("nombre", "")] none 50 (.respuesta "ok")
    (filaNueva 7 "3109876543" "\x7bnombre\x7d" none none 0)
    (List.mem_singleton.mpr rfl) rfl (by decide)

/-- C8 counterexample.  One error recorded against five recorded sends:
the recomputed error rate is exactly 20%, at which the claim requires
the capacity to shrink to `max(10, floor(100 * 0.8)) = 80`, but the
source compares with strict `> 0.2` and leaves the capacity at 100. -/
theorem c8_umbral_veinte_por_ciento_estricto :
    let s : RateLimiterState :=
      { max_por_minuto := 100, adaptativo := true, errores_recientes := [],
        timestamps := [1, 2, 3, 4, 5], tasa_error_actual := 0 }
    (registrarError 50 s).tasa_error_actual = 1/5 ∧
    (registrarError 50 s).max_por_minuto = 100 := by
  norm_num [registrarError, tasaCalculada, pushDeque, List.filter]

/-- C8 amended.  With at least one send recorded, `registrar_error`
stores the recomputed trailing error rate and, in adaptive mode,
shrinks the capacity to `max(10, floor(capacity * 0.8))` when the rate
is strictly greater than 20% — at 20% or below nothing shrinks;
`registrar_exito` in adaptive mode with the stored rate strictly below
5% raises a sub-200 capacity to `min(200, capacity + 5)` and leaves a
capacity at or above 200 unchanged. -/
theorem c8_tasas_ajuste_adaptativo (now : ℚ) (s : RateLimiterState) :
    (0 < s.timestamps.length → s.adaptativo = true →
      ((registrarError now s).tasa_error_actual = tasaCalculada now s) ∧
      ((1 : ℚ)/5 < tasaCalculada now s →
        (registrarError now s).max_por_minuto =
          max 10 ⌊(s.max_por_minuto : ℚ) * (4/5)⌋) ∧
      (tasaCalculada now s ≤ (1 : ℚ)/5 →
        (registrarError now s).max_por_minuto = s.max_por_minuto)) ∧
    (s.adaptativo = true → s.tasa_error_actual < (1 : ℚ)/20 →
      (s.max_por_minuto < 200 →
        (registrarExito s).max_por_minuto = min 200 (s.max_por_minuto + 5)) ∧
      (200 ≤ s.max_por_minuto → registrarExito s = s)) := by
  constructor
  · intro htotal ha
    simp only [registrarError, if_pos htotal, ha, Bool.true_and,
      decide_eq_true_eq]
    refine ⟨?_, ?_, ?_⟩
    · by_cases htasa : (1 : ℚ)/5 < tasaCalculada now s
      · rw [if_pos htasa]
      · rw [if_neg htasa]
    · intro htasa
      rw [if_pos htasa]
    · intro htasa
      rw [if_neg (not_lt.mpr htasa)]
  · intro ha htasa
    simp only [registrarExito, ha, Bool.and_true, decide_eq_true_eq,
      if_pos htasa]
    constructor
    · intro hlt
      rw [if_pos (by omega)]
    · intro hge
      rw [if_neg (by omega)]

/-- C8 witness: one error against two recorded sends gives a 50% rate,
strictly above the threshold, so the capacity of 100 shrinks to
`max(10, floor(80)) = 80`. -/
theorem c8_tasas_ajuste_adaptativo_witness :
    (registrarError 50
        { max_por_minuto := 100, adaptativo := true, errores_recientes := [],
          timestamps := [1, 2], tasa_error_actual := 0 }).max_por_minuto =
      max 10 ⌊((100 : ℤ) : ℚ) * (4/5)⌋ :=
  ((c8_tasas_ajuste_adaptativo 50
      { max_por_minuto := 100, adaptativo := true, errores_recientes := [],
        timestamps := [1, 2], tasa_error_actual := 0 }).1
    (by norm_num) rfl).2.1
    (by norm_num [tasaCalculada, pushDeque, List.filter])
